import Mathlib

/-!
Verification development for the saliency-map gradient engine in
`pixel_privacy/attacks/utils/backprop.py`.

The embedding below translates the `Backprop` class and the
`get_input_gradient` wrapper into Lean.  Tensors are modelled as a shape
(a list of dimension sizes) together with flat row-major data over `ℚ`
(the claims under study concern shapes, indices, control flow, warnings
and hook lifecycle, none of which depend on floating-point rounding).
The neural network is the external collaborator of the spec: an opaque
forward function plus a vector-Jacobian product `vjp` standing for the
ambient autodiff engine (`output.backward(gradient=seed)` populating
`input_.grad`), a class name (used by the Inception shape guard), a
training-mode flag (toggled by `model.eval()`), an enumerable list of
sub-layer kinds (`named_modules`), and the list of hooks currently
attached to its layers.
-/

namespace PixelPrivacy

/-- A tensor: row-major flat data together with its shape. -/
structure Tensor where
  shape : List Nat
  data : List ℚ
deriving DecidableEq, Repr

/-- Translation of `torch.zeros(input_.shape)`. -/
def zerosLike (t : Tensor) : Tensor :=
  { shape := t.shape, data := List.replicate t.shape.prod 0 }

/-- Kind of a sub-module as seen by `named_modules()` type inspection:
either an `nn.ReLU` instance or anything else. -/
inductive LayerKind
  | relu
  | other
deriving DecidableEq, Repr

/-- The two hooks `_register_relu_hooks` attaches to a ReLU module. -/
inductive HookKind
  | fwdCapture
  | bwdClip
deriving DecidableEq, Repr

/-- A hook handle, identified by the index of the module it is attached
to (the position in the `named_modules` enumeration) and the hook kind. -/
structure Handle where
  layerIdx : Nat
  kind : HookKind
deriving DecidableEq, Repr

/-- The external model collaborator.  `forward` receives the current
training-mode flag (PyTorch modules behave differently in train and eval
mode) and the input tensor; `vjp` is the ambient autodiff: given the
input and the seed passed to `output.backward(gradient=...)` (`none` is
the implicit seed used when no target mask is built), it produces the
gradient that ends up in `input_.grad`.  `attached` is the multiset of
hooks currently attached to the model's sub-modules. -/
structure Model where
  className : String
  training : Bool
  layers : List LayerKind
  attached : List Handle
  forward : Bool → Tensor → Tensor
  vjp : Tensor → Option Tensor → Tensor

/-- Translation of `self.model(input_)`: a forward pass under the model's current mode. -/
def modelForward (m : Model) (x : Tensor) : Tensor :=
  m.forward m.training x

/-- Engine state: the fields of the `Backprop` instance
(`self.model`, `self.gradients`, `self.handles`, `self.relu_outputs`). -/
structure Backprop where
  model : Model
  gradients : Option Tensor
  handles : List Handle
  relu_outputs : List Tensor

/-- Translation of `Backprop.__init__`: store the model, switch it to evaluation mode
(`self.model.eval()`), and initialise `gradients` and `handles`.
(`relu_outputs` is only created by a guided call in the source; the
state record needs a value, so it starts empty.) -/
def Backprop.init (model : Model) : Backprop :=
  { model := { model with training := false },
    gradients := none,
    handles := [],
    relu_outputs := [] }

/-- Translation of `name.lower()`: lower-case the class name, as a character list. -/
def lowerChars (s : String) : List Char :=
  s.data.map Char.toLower

/-- Translation of `pat in s`: Python substring occurrence, on character lists. -/
def subOccurs (pat : List Char) : List Char → Bool
  | [] => pat.isEmpty
  | c :: cs => pat.isPrefixOf (c :: cs) || subOccurs pat cs

/-- Translation of `'inception' in name.lower()`. -/
def containsSub (s : String) (pat : String) : Bool :=
  subOccurs pat.data (lowerChars s)

/-- The precondition check at the top of `calculate_gradients`:
`'inception' in self.model.__class__.__name__.lower()` together with
`input_.size()[1:] != (3, 299, 299)`. -/
def inceptionGuardFails (m : Model) (input_ : Tensor) : Bool :=
  containsSub m.className "inception" &&
    decide (input_.shape.tail ≠ [3, 299, 299])

/-- The handles created by `_register_relu_hooks`, walking the
enumeration of named modules from a starting index: for every `nn.ReLU`
module, one forward-capture handle then one backward-clip handle. -/
def reluHandlesFrom : Nat → List LayerKind → List Handle
  | _, [] => []
  | i, l :: ls =>
      (if l = LayerKind.relu then [⟨i, HookKind.fwdCapture⟩, ⟨i, HookKind.bwdClip⟩] else [])
        ++ reluHandlesFrom (i + 1) ls

/-- Handles for the whole model (`named_modules` enumerated from 0). -/
def reluHandlesOf (layers : List LayerKind) : List Handle :=
  reluHandlesFrom 0 layers

/-- Translation of `Backprop._register_relu_hooks` (hook registration effect): append a
forward-capture and a backward-clip handle for every ReLU layer both to
`self.handles` and to the model's attached-hook collection. -/
def registerReluHooks (s : Backprop) : Backprop :=
  let hs := reluHandlesOf s.model.layers
  { s with
    handles := s.handles ++ hs,
    model := { s.model with attached := s.model.attached ++ hs } }

/-- Remove one attached hook (`handle.remove()`): delete the first
matching entry. -/
def removeHandle : List Handle → Handle → List Handle
  | [], _ => []
  | x :: xs, h => if x = h then xs else x :: removeHandle xs h

/-- Translation of `Backprop.__del__`: for every handle in `self.handles`, detach it
from the model. -/
def delBackprop (s : Backprop) : Backprop :=
  { s with
    model := { s.model with
      attached := s.handles.foldl (fun acc h => removeHandle acc h) s.model.attached } }

/-- Index returned by `output.topk(1, dim=1)` for a `(1, n)` output:
the first index attaining the maximum score.  (All call sites of the
source and all claims use batch size 1, so the top-1 of the single row
is the top-1 of the flat data.) -/
def argmaxIdx (l : List ℚ) : Nat :=
  (List.range l.length).foldl
    (fun best i => if l.getD i 0 > l.getD best 0 then i else best) 0

/-- Data of the target mask: `torch.FloatTensor(1, n).zero_()` followed
by `target[0][top_class] = 1`. -/
def targetMaskData (n top : Nat) : List ℚ :=
  (List.replicate n (0 : ℚ)).set top 1

/-- Translation of `gradients.max(dim=0, keepdim=True)[0]`: maximum over the leading
dimension, keeping it (with size 1). -/
def maxDim0Keepdim (t : Tensor) : Tensor :=
  match t.shape with
  | [] => t
  | d0 :: rest =>
      let m := rest.prod
      { shape := 1 :: rest,
        data := (List.range m).map (fun j =>
          ((List.range d0).map (fun i => t.data.getD (i * m + j) 0)).foldl
            max (t.data.getD j 0)) }

/-- Errors raised by `calculate_gradients`:
`ValueError` from the Inception shape guard, and the
`UnboundLocalError` raised by `return gradients, top_class` on the
rank-1 (binary-classifier) path, where `top_class` is never assigned. -/
inductive PyError
  | valueError
  | unboundLocal
deriving DecidableEq, Repr

/-- The non-fatal warning `warnings.warn(UserWarning(...))` emitted when
the caller-supplied target class differs from the top-1 prediction;
carries the predicted and the requested index. -/
inductive PyWarning
  | classMismatch (predicted : Nat) (requested : Nat)
deriving DecidableEq, Repr

/-- Observable outcome of one `calculate_gradients` call: the returned
value (or the raised error), the engine state after the call, the
warnings emitted, how many times the model's forward pass ran, and the
seed passed to `output.backward(gradient=...)` (`none` when backward was
never reached, `some none` for the implicit seed, `some (some t)` for a
target mask `t`). -/
structure CallResult where
  value : Except PyError (Tensor × Nat)
  state : Backprop
  warnings : List PyWarning
  forwardCalls : Nat
  seed : Option (Option Tensor)

/-- Translation of `Backprop.calculate_gradients`, statement by statement:
Inception shape guard; guided hook registration (`self.relu_outputs = []`
then `_register_relu_hooks`); device transfer (no effect here: tensors
carry no device); `input_.requires_grad_(True)` and
`self.model.zero_grad()` (parameter gradients are outside the modelled
state); `self.gradients = torch.zeros(input_.shape)`; forward pass;
target selection; backward pass; `input_.grad.data.cpu()`; optional
`max(dim=0, keepdim=True)`; and the final `return gradients, top_class`.
On the rank-1 output path `top_class` is never assigned, so that return
statement raises `UnboundLocalError`. -/
def calculate_gradients (s : Backprop) (input_ : Tensor) (target_class : Option Nat)
    (take_max : Bool) (guided : Bool) (use_gpu : Bool) : CallResult :=
  if inceptionGuardFails s.model input_ then
    { value := Except.error PyError.valueError, state := s, warnings := [],
      forwardCalls := 0, seed := none }
  else
    let s1 := if guided then registerReluHooks { s with relu_outputs := [] } else s
    let s2 : Backprop := { s1 with gradients := some (zerosLike input_) }
    let output := modelForward s2.model input_
    if output.shape.length = 1 then
      let gradients := s2.model.vjp input_ none
      let _gradients2 := if take_max then maxDim0Keepdim gradients else gradients
      { value := Except.error PyError.unboundLocal, state := s2, warnings := [],
        forwardCalls := 1, seed := some none }
    else
      let top_class := argmaxIdx output.data
      let n := output.shape.getLastD 0
      let target : Tensor := { shape := [1, n], data := targetMaskData n top_class }
      let warns :=
        match target_class with
        | some c => if top_class ≠ c then [PyWarning.classMismatch top_class c] else []
        | none => []
      let gradients := s2.model.vjp input_ (some target)
      let gradients2 := if take_max then maxDim0Keepdim gradients else gradients
      { value := Except.ok (gradients2, top_class), state := s2, warnings := warns,
        forwardCalls := 1, seed := some (some target) }

/-- The state transition of one guided call (the part of a
`calculate_gradients(..., guided=True)` call that survives the call). -/
def guidedCallState (input_ : Tensor) (s : Backprop) : Backprop :=
  (calculate_gradients s input_ none false true true).state

/-! ### The guided-backprop hooks and the Relu Output Stack

`_record_output` and `_clip_gradients` are closures over
`self.relu_outputs`.  Their bodies are translated here, and a
forward-plus-backward execution of a sequential network carrying that
stack models one autograd pass with the hooks in place: the autograd
engine runs the layers' backward functions in the reverse of the forward
order, invoking the backward hook at each ReLU. -/

/-- Translation of `x.clamp(0.0)` on flat data: zero out negative components. -/
def clampNonneg (g : List ℚ) : List ℚ :=
  g.map (fun a => max a 0)

/-- The body of the backward hook `_clip_gradients`:
`relu_output = self.relu_outputs.pop()` (the most recently appended
entry; `none` models the `IndexError` of popping an empty list),
`clippled_grad_out = grad_out[0].clamp(0.0)`, and the returned value
`clippled_grad_out.mul(relu_output)`.  The result is the remaining
stack, the popped activation, and the gradient propagated upstream. -/
def clipGradientsHook (st : List (List ℚ)) (grad_out : List ℚ) :
    Option (List (List ℚ) × List ℚ × List ℚ) :=
  match st.getLast? with
  | none => none
  | some relu_output =>
      some (st.dropLast, relu_output,
        (clampNonneg grad_out).zipWith (fun a b => a * b) relu_output)

/-- A layer of a sequential fixture network: an `nn.ReLU`, or any other
differentiable layer given by its forward map and its backward
(vector-Jacobian) map. -/
inductive SeqLayer
  | relu
  | lin (fwd : List ℚ → List ℚ) (bwd : List ℚ → List ℚ)

/-- Semantics of the `nn.ReLU` forward map on flat data. -/
def reluFwd (x : List ℚ) : List ℚ :=
  x.map (fun a => max a 0)

/-- Forward pass with the forward hook in place: at every ReLU layer the
hook `_record_output` appends the layer's output to `self.relu_outputs`.
Returns the stack and the network output. -/
def forwardHooked : List SeqLayer → List (List ℚ) → List ℚ → List (List ℚ) × List ℚ
  | [], st, x => (st, x)
  | SeqLayer.relu :: ls, st, x =>
      let y := reluFwd x
      forwardHooked ls (st ++ [y]) y
  | SeqLayer.lin f _ :: ls, st, x => forwardHooked ls st (f x)

/-- Backward pass with the backward hook in place, over an
already-reversed layer list: at every ReLU layer `_clip_gradients` runs;
at every other layer its backward map runs.  Returns the remaining
stack, the sequence of popped activations (in consumption order), and
the gradient that reaches the network input; `none` models a pop from an
empty stack. -/
def backwardHooked : List SeqLayer → List (List ℚ) → List ℚ →
    Option (List (List ℚ) × List (List ℚ) × List ℚ)
  | [], st, g => some (st, [], g)
  | SeqLayer.relu :: ls, st, g =>
      match clipGradientsHook st g with
      | none => none
      | some (st2, popped, g2) =>
          match backwardHooked ls st2 g2 with
          | none => none
          | some (st3, pops, g3) => some (st3, popped :: pops, g3)
  | SeqLayer.lin _ b :: ls, st, g => backwardHooked ls st (b g)

/-! ### The visualization wrapper -/

/-- Modelled from the spec: the external collaborator
`flashtorch.utils.format_for_plotting` reshapes a batched tensor for
display — the batch dimension is removed and the channel dimension is
moved last (dropped entirely for a single channel); entries are
unchanged. -/
def format_for_plotting (t : Tensor) : Tensor :=
  match t.shape with
  | [_, c, h, w] =>
      if c = 1 then { shape := [h, w], data := t.data }
      else
        { shape := [h, w, c],
          data := (List.range h).flatMap (fun i =>
            (List.range w).flatMap (fun j =>
              (List.range c).map (fun k => t.data.getD ((k * h + i) * w + j) 0))) }
  | _ => t

/-- Modelled from the spec: the external collaborator
`flashtorch.utils.standardize_and_clip` maps a tensor into the
zero-to-one displayable range — every entry of its output lies in
`[0, 1]`. -/
def standardize_and_clip (t : Tensor) : Tensor :=
  { t with data := t.data.map (fun a => min 1 (max 0 a)) }

/-- Translation of `get_input_gradient`, with the image-loading collaborator passed as
a function (modelled from the spec: `load_img`, repository code absent
from `src/`, returns a rank-4 channel-first input tensor for a file
path).  The source loads the image, builds a fresh engine, calls
`calculate_gradients(img, None, take_max, guided, use_gpu)`, computes
`format_for_plotting(output)` and `standardize_and_clip` of it, renders
a three-panel figure (a side effect with no counterpart in the returned
value), and returns `(output, x)` where `x` is the raw gradient and
`output` has been rebound to the formatted — not the clipped — map. -/
def get_input_gradient (loader : String → Tensor) (model : Model) (fname : String)
    (guided : Bool) (take_max : Bool) (use_gpu : Bool) :
    Except PyError (Tensor × Tensor) :=
  let img := loader fname
  let backprop := Backprop.init model
  match (calculate_gradients backprop img none take_max guided use_gpu).value with
  | Except.error e => Except.error e
  | Except.ok (output, _target_class) =>
      let x := output
      let output2 := format_for_plotting output
      let _clip_grad := standardize_and_clip output2
      Except.ok (output2, x)

/-! ## Fixtures -/

/-- A binary-classifier fixture: its forward pass outputs the rank-1
tensor `[7/10]`; its vjp returns an all-ones gradient of the input's
shape. -/
def binModel : Model :=
  { className := "BinaryNet", training := true, layers := [LayerKind.relu], attached := [],
    forward := fun _ _ => { shape := [1], data := [(7 : ℚ) / 10] },
    vjp := fun x _ => { shape := x.shape, data := List.replicate x.shape.prod 1 } }

/-- A rank-4 input of shape `(1, 3, 2, 2)`. -/
def binInput : Tensor :=
  { shape := [1, 3, 2, 2], data := List.replicate 12 (1 : ℚ) }

/-- A 3-channel fixture with a 2-class output `[1, 2]`; its vjp returns
the gradient `0, 1, 2, …` of the input's shape. -/
def rgbModel : Model :=
  { className := "SimpleCNN", training := true, layers := [], attached := [],
    forward := fun _ _ => { shape := [1, 2], data := [1, 2] },
    vjp := fun x _ =>
      { shape := x.shape, data := (List.range x.shape.prod).map (fun k => (k : ℚ)) } }

/-- A fixture of the fixed-resolution (Inception) family: the class name
contains `inception` after lower-casing.  Its tensor data is never
touched in the claims about it: the shape guard fires first. -/
def inceptionModel : Model :=
  { className := "Inception3", training := true, layers := [LayerKind.relu], attached := [],
    forward := fun _ x => x, vjp := fun x _ => x }

/-- A `224 × 224` input (wrong size for the Inception family).  The
guard reads only the shape, so the data can stay empty. -/
def input224 : Tensor :=
  { shape := [1, 3, 224, 224], data := [] }

/-! ## Claims -/

/-- Claim C10: constructing a `Backprop` engine over a model immediately
and unconditionally switches the model into evaluation mode — a change
that persists after the constructor returns and governs every subsequent
forward pass of that model — while every other component of the model
(class name, layers, attached hooks, forward function, vjp) is left
unmodified; the engine's own fields start as `gradients = None` and
`handles = []`. -/
theorem backprop_init_eval_mode (m : Model) :
    (Backprop.init m).model.training = false ∧
    (∀ x, modelForward (Backprop.init m).model x = m.forward false x) ∧
    (Backprop.init m).model.className = m.className ∧
    (Backprop.init m).model.layers = m.layers ∧
    (Backprop.init m).model.attached = m.attached ∧
    (Backprop.init m).model.forward = m.forward ∧
    (Backprop.init m).model.vjp = m.vjp ∧
    (Backprop.init m).gradients = none ∧
    (Backprop.init m).handles = [] :=
  ⟨rfl, fun _ => rfl, rfl, rfl, rfl, rfl, rfl, rfl, rfl⟩

/-- Claim C2 (code bug): on a rank-1 (binary-classifier) output the code
indeed builds no target mask — the backward seed is the implicit one
(`seed = some none`) — but the call does not return `None` as the
predicted class: the final `return gradients, top_class` raises
`UnboundLocalError`, because `top_class` is only assigned on the
multi-class branch.  Evaluated here on the concrete binary fixture. -/
theorem calculate_gradients_binary_unbound_top_class :
    (calculate_gradients (Backprop.init binModel) binInput none false false true).seed =
      some none ∧
    (calculate_gradients (Backprop.init binModel) binInput none false false true).value =
      Except.error PyError.unboundLocal :=
  ⟨rfl, rfl⟩

/-- Claim C3 (code bug): the batch dimension is never removed from the
extracted gradient, and `take_max` maxes over dimension 0 — the batch
dimension — with `keepdim=True`.  On a `(1, 3, 2, 2)` input the returned
gradient has shape `(1, 3, 2, 2)` both with and without `take_max`,
instead of the documented `(3, 2, 2)` (and with `take_max` the channel
dimension stays 3, so the result is not a single-channel map). -/
theorem calculate_gradients_keeps_batch_dim :
    ((calculate_gradients (Backprop.init rgbModel) binInput none false false true).value.map
        (fun p => p.1.shape)) = Except.ok [1, 3, 2, 2] ∧
    ((calculate_gradients (Backprop.init rgbModel) binInput none true false true).value.map
        (fun p => p.1.shape)) = Except.ok [1, 3, 2, 2] ∧
    ([1, 3, 2, 2] : List Nat) ≠ [3, 2, 2] :=
  ⟨rfl, rfl, by decide⟩

/-- Claim C8: for a model of the Inception family, an input whose
non-batch shape is not `(3, 299, 299)` makes `calculate_gradients` raise
the shape error synchronously, before anything else happens: the model's
forward pass never runs, the engine state (hooks included) is untouched,
no backward seed is built, and no warning is emitted. -/
theorem inception_shape_guard (s : Backprop) (input_ : Tensor) (tc : Option Nat)
    (take_max guided use_gpu : Bool)
    (h1 : containsSub s.model.className "inception" = true)
    (h2 : input_.shape.tail ≠ [3, 299, 299]) :
    (calculate_gradients s input_ tc take_max guided use_gpu).value =
      Except.error PyError.valueError ∧
    (calculate_gradients s input_ tc take_max guided use_gpu).forwardCalls = 0 ∧
    (calculate_gradients s input_ tc take_max guided use_gpu).state = s ∧
    (calculate_gradients s input_ tc take_max guided use_gpu).seed = none ∧
    (calculate_gradients s input_ tc take_max guided use_gpu).warnings = [] := by
  have hg : inceptionGuardFails s.model input_ = true := by
    simp [inceptionGuardFails, h1, h2]
  simp [calculate_gradients, hg]

/-- Witness for C8 at the concrete Inception fixture and a `224 × 224`
input. -/
theorem inception_shape_guard_witness :
    containsSub (Backprop.init inceptionModel).model.className "inception" = true ∧
    input224.shape.tail ≠ [3, 299, 299] ∧
    ((calculate_gradients (Backprop.init inceptionModel) input224 none false true true).value =
        Except.error PyError.valueError ∧
      (calculate_gradients (Backprop.init inceptionModel) input224 none false true true).forwardCalls = 0 ∧
      (calculate_gradients (Backprop.init inceptionModel) input224 none false true true).state =
        Backprop.init inceptionModel ∧
      (calculate_gradients (Backprop.init inceptionModel) input224 none false true true).seed = none ∧
      (calculate_gradients (Backprop.init inceptionModel) input224 none false true true).warnings = []) :=
  ⟨by decide, by decide,
    inception_shape_guard (Backprop.init inceptionModel) input224 none false true true
      (by decide) (by decide)⟩

/-- Evaluation of `calculate_gradients` on the multi-class path (the
Inception guard passes and the forward output has rank-2 shape
`(1, n)`): the backward seed is the one-hot mask at the top-1 index, the
returned class is the top-1 index, and a warning appears exactly when a
caller-supplied target class disagrees with it. -/
theorem calculate_gradients_multiclass_eq (s : Backprop) (input_ : Tensor) (tc : Option Nat)
    (take_max guided use_gpu : Bool) (n : Nat)
    (hguard : inceptionGuardFails s.model input_ = false)
    (hshape : (modelForward s.model input_).shape = [1, n]) :
    calculate_gradients s input_ tc take_max guided use_gpu =
      { value := Except.ok
          ((if take_max then
              maxDim0Keepdim (s.model.vjp input_ (some
                { shape := [1, n],
                  data := targetMaskData n (argmaxIdx (modelForward s.model input_).data) }))
            else
              s.model.vjp input_ (some
                { shape := [1, n],
                  data := targetMaskData n (argmaxIdx (modelForward s.model input_).data) })),
           argmaxIdx (modelForward s.model input_).data),
        state := { (if guided then registerReluHooks { s with relu_outputs := [] } else s) with
                   gradients := some (zerosLike input_) },
        warnings :=
          match tc with
          | some c =>
              if argmaxIdx (modelForward s.model input_).data ≠ c then
                [PyWarning.classMismatch (argmaxIdx (modelForward s.model input_).data) c]
              else []
          | none => [],
        forwardCalls := 1,
        seed := some (some
          { shape := [1, n],
            data := targetMaskData n (argmaxIdx (modelForward s.model input_).data) }) } := by
  have hshape' : (s.model.forward s.model.training input_).shape = [1, n] := hshape
  have hlen : ¬ (s.model.forward s.model.training input_).shape.length = 1 := by
    rw [hshape']; simp
  have hlast : (s.model.forward s.model.training input_).shape.getLastD 0 = n := by
    rw [hshape']; rfl
  cases guided with
  | false =>
      simp only [calculate_gradients, hguard, Bool.false_eq_true, if_false, modelForward,
        hlen, hlast]
  | true =>
      simp only [calculate_gradients, hguard, Bool.false_eq_true, if_false, if_true,
        registerReluHooks, modelForward, hlen, hlast]

/-- The fold computing `argmaxIdx` only ever returns its seed or a
visited index. -/
theorem foldl_best_mem (l : List ℚ) :
    ∀ (xs : List Nat) (b : Nat),
      xs.foldl (fun best i => if l.getD i 0 > l.getD best 0 then i else best) b = b ∨
      xs.foldl (fun best i => if l.getD i 0 > l.getD best 0 then i else best) b ∈ xs := by
  intro xs
  induction xs with
  | nil => intro b; left; rfl
  | cons x xs ih =>
      intro b
      simp only [List.foldl_cons]
      rcases ih (if l.getD x 0 > l.getD b 0 then x else b) with h | h
      · rw [h]
        split
        · right; exact List.mem_cons_self _ _
        · left; rfl
      · right; exact List.mem_cons_of_mem _ h

/-- The top-1 index lies inside the score vector. -/
theorem argmaxIdx_lt (l : List ℚ) (h : 0 < l.length) : argmaxIdx l < l.length := by
  unfold argmaxIdx
  rcases foldl_best_mem l (List.range l.length) 0 with h1 | h1
  · rw [h1]; exact h
  · exact List.mem_range.mp h1

/-- An all-zero vector has no entry counted as non-zero. -/
theorem countP_replicate_zero (m : Nat) :
    (List.replicate m (0 : ℚ)).countP (fun a => decide (a ≠ 0)) = 0 := by
  induction m with
  | zero => rfl
  | succ k ih => simp [List.replicate_succ, List.countP_cons, ih]

/-- The target mask has exactly one non-zero entry. -/
theorem targetMaskData_countNonzero (n top : Nat) (h : top < n) :
    (targetMaskData n top).countP (fun a => decide (a ≠ 0)) = 1 := by
  unfold targetMaskData
  induction n generalizing top with
  | zero => omega
  | succ m ih =>
      cases top with
      | zero =>
          simp [List.replicate_succ, List.countP_cons, countP_replicate_zero]
      | succ t =>
          simp only [List.replicate_succ, List.set_cons_succ, List.countP_cons]
          rw [ih t (by omega)]
          norm_num

/-- The target mask carries the value 1 at the selected index. -/
theorem targetMaskData_get (n top : Nat) (h : top < n) :
    (targetMaskData n top).getD top 0 = 1 := by
  unfold targetMaskData
  induction n generalizing top with
  | zero => omega
  | succ m ih =>
      cases top with
      | zero => simp [List.replicate_succ]
      | succ t =>
          simp only [List.replicate_succ, List.set_cons_succ, List.getD_cons_succ]
          exact ih t (by omega)

/-- A multi-class fixture for the witnesses below: scores `[1, 3]`, so
the top-1 index is 1. -/
def demoModel : Model :=
  { className := "DemoNet", training := false, layers := [LayerKind.relu], attached := [],
    forward := fun _ _ => { shape := [1, 2], data := [1, 3] },
    vjp := fun x _ => { shape := x.shape, data := List.replicate x.shape.prod 1 } }

/-- A tiny rank-4 input for the witnesses. -/
def demoInput : Tensor :=
  { shape := [1, 1, 1, 1], data := [0] }

/-- Claim C1: on a multi-class `(1, n)` output, `calculate_gradients`
builds the backward seed as a target mask of shape `(1, n)` whose data
is one-hot at the top-1 index of the forward output — exactly one
non-zero entry, equal to 1, located at the top-1 index — and the same
mask is built whatever `target_class` the caller supplies (the statement
holds for every `tc`, and the mask does not mention it). -/
theorem calculate_gradients_target_mask_top1 (s : Backprop) (input_ : Tensor)
    (tc : Option Nat) (take_max guided use_gpu : Bool) (n : Nat)
    (hguard : inceptionGuardFails s.model input_ = false)
    (hshape : (modelForward s.model input_).shape = [1, n])
    (hlen : (modelForward s.model input_).data.length = n)
    (hn : 0 < n) :
    (calculate_gradients s input_ tc take_max guided use_gpu).seed =
      some (some
        { shape := [1, n],
          data := targetMaskData n (argmaxIdx (modelForward s.model input_).data) }) ∧
    (targetMaskData n (argmaxIdx (modelForward s.model input_).data)).countP
        (fun a => decide (a ≠ 0)) = 1 ∧
    (targetMaskData n (argmaxIdx (modelForward s.model input_).data)).getD
        (argmaxIdx (modelForward s.model input_).data) 0 = 1 := by
  have htop : argmaxIdx (modelForward s.model input_).data < n := by
    have h2 := argmaxIdx_lt (modelForward s.model input_).data (by rw [hlen]; exact hn)
    rwa [hlen] at h2
  refine ⟨?_, targetMaskData_countNonzero n _ htop, targetMaskData_get n _ htop⟩
  rw [calculate_gradients_multiclass_eq s input_ tc take_max guided use_gpu n hguard hshape]

/-- Witness for C1 on the concrete two-class fixture, with a
caller-supplied `target_class = 0` disagreeing with the top-1 index 1. -/
theorem target_mask_top1_witness :
    inceptionGuardFails (Backprop.init demoModel).model demoInput = false ∧
    (modelForward (Backprop.init demoModel).model demoInput).shape = [1, 2] ∧
    (modelForward (Backprop.init demoModel).model demoInput).data.length = 2 ∧
    0 < 2 ∧
    ((calculate_gradients (Backprop.init demoModel) demoInput (some 0) false false true).seed =
        some (some
          { shape := [1, 2],
            data := targetMaskData 2
              (argmaxIdx (modelForward (Backprop.init demoModel).model demoInput).data) }) ∧
      (targetMaskData 2
          (argmaxIdx (modelForward (Backprop.init demoModel).model demoInput).data)).countP
          (fun a => decide (a ≠ 0)) = 1 ∧
      (targetMaskData 2
          (argmaxIdx (modelForward (Backprop.init demoModel).model demoInput).data)).getD
          (argmaxIdx (modelForward (Backprop.init demoModel).model demoInput).data) 0 = 1) :=
  ⟨by decide, by decide, by decide, by decide,
    calculate_gradients_target_mask_top1 (Backprop.init demoModel) demoInput (some 0)
      false false true 2 (by decide) (by decide) (by decide) (by decide)⟩

/-- Claim C4: on a multi-class call, a caller-supplied `target_class`
differing from the top-1 index produces exactly one non-fatal warning —
the call still succeeds (`Except.ok`) and still returns the top-1
index, never the caller's value — while no warning is emitted when
`target_class` is absent or equals the top-1 index. -/
theorem calculate_gradients_class_mismatch_warning (s : Backprop) (input_ : Tensor)
    (tc : Option Nat) (take_max guided use_gpu : Bool) (n : Nat)
    (hguard : inceptionGuardFails s.model input_ = false)
    (hshape : (modelForward s.model input_).shape = [1, n]) :
    (∃ gt, (calculate_gradients s input_ tc take_max guided use_gpu).value =
        Except.ok (gt, argmaxIdx (modelForward s.model input_).data)) ∧
    (∀ c, tc = some c → c ≠ argmaxIdx (modelForward s.model input_).data →
      (calculate_gradients s input_ tc take_max guided use_gpu).warnings =
        [PyWarning.classMismatch (argmaxIdx (modelForward s.model input_).data) c]) ∧
    (tc = none →
      (calculate_gradients s input_ tc take_max guided use_gpu).warnings = []) ∧
    (∀ c, tc = some c → c = argmaxIdx (modelForward s.model input_).data →
      (calculate_gradients s input_ tc take_max guided use_gpu).warnings = []) := by
  rw [calculate_gradients_multiclass_eq s input_ tc take_max guided use_gpu n hguard hshape]
  refine ⟨⟨_, rfl⟩, ?_, ?_, ?_⟩
  · intro c hc hne
    subst hc
    show (if argmaxIdx (modelForward s.model input_).data ≠ c then
        [PyWarning.classMismatch (argmaxIdx (modelForward s.model input_).data) c]
      else []) = _
    rw [if_pos (Ne.symm hne)]
  · intro hc
    subst hc
    rfl
  · intro c hc he
    subst hc
    show (if argmaxIdx (modelForward s.model input_).data ≠ c then
        [PyWarning.classMismatch (argmaxIdx (modelForward s.model input_).data) c]
      else []) = _
    rw [if_neg (fun hcon => hcon he.symm)]

/-- Witness for C4 on the concrete two-class fixture: requesting class 0
while the prediction is 1 warns once and returns 1. -/
theorem class_mismatch_warning_witness :
    inceptionGuardFails (Backprop.init demoModel).model demoInput = false ∧
    (modelForward (Backprop.init demoModel).model demoInput).shape = [1, 2] ∧
    ((∃ gt, (calculate_gradients (Backprop.init demoModel) demoInput (some 0) false false true).value =
        Except.ok (gt, argmaxIdx (modelForward (Backprop.init demoModel).model demoInput).data)) ∧
      (∀ c, (some 0 : Option Nat) = some c →
        c ≠ argmaxIdx (modelForward (Backprop.init demoModel).model demoInput).data →
        (calculate_gradients (Backprop.init demoModel) demoInput (some 0) false false true).warnings =
          [PyWarning.classMismatch
            (argmaxIdx (modelForward (Backprop.init demoModel).model demoInput).data) c]) ∧
      ((some 0 : Option Nat) = none →
        (calculate_gradients (Backprop.init demoModel) demoInput (some 0) false false true).warnings = []) ∧
      (∀ c, (some 0 : Option Nat) = some c →
        c = argmaxIdx (modelForward (Backprop.init demoModel).model demoInput).data →
        (calculate_gradients (Backprop.init demoModel) demoInput (some 0) false false true).warnings = [])) :=
  ⟨by decide, by decide,
    calculate_gradients_class_mismatch_warning (Backprop.init demoModel) demoInput (some 0)
      false false true 2 (by decide) (by decide)⟩

/-! ### Hook-lifecycle bookkeeping lemmas -/

/-- Handles created from enumeration index `j` onward never mention an
earlier layer index. -/
theorem countP_reluHandlesFrom_lt (ls : List LayerKind) :
    ∀ (j i : Nat) (k : HookKind), i < j →
      (reluHandlesFrom j ls).countP (fun h => decide (h = ⟨i, k⟩)) = 0 := by
  induction ls with
  | nil => intro j i k _; rfl
  | cons l ls ih =>
      intro j i k hij
      rw [reluHandlesFrom, List.countP_append]
      rw [ih (j + 1) i k (by omega)]
      cases l with
      | relu =>
          simp only [if_pos rfl, List.countP_cons, List.countP_nil]
          have h1 : (Handle.mk j HookKind.fwdCapture = Handle.mk i k) = False := by
            simp [Handle.mk.injEq]; omega
          have h2 : (Handle.mk j HookKind.bwdClip = Handle.mk i k) = False := by
            simp [Handle.mk.injEq]; omega
          simp [h1, h2]
      | other => simp

/-- A ReLU layer at position `i` of the enumeration contributes exactly
one handle of each kind. -/
theorem countP_reluHandlesFrom (ls : List LayerKind) :
    ∀ (j i : Nat) (k : HookKind),
      ls.getD i LayerKind.other = LayerKind.relu →
      (reluHandlesFrom j ls).countP (fun h => decide (h = ⟨j + i, k⟩)) = 1 := by
  induction ls with
  | nil =>
      intro j i k h
      rw [List.getD_nil] at h
      cases h
  | cons l ls ih =>
      intro j i k h
      rw [reluHandlesFrom, List.countP_append]
      cases i with
      | zero =>
          rw [List.getD_cons_zero] at h
          rw [h, if_pos rfl]
          rw [countP_reluHandlesFrom_lt ls (j + 1) (j + 0) k (by omega)]
          cases k <;> simp [List.countP_cons, Handle.mk.injEq]
      | succ t =>
          rw [List.getD_cons_succ] at h
          have hrec := ih (j + 1) t k h
          have hidx : j + 1 + t = j + (t + 1) := by omega
          rw [hidx] at hrec
          rw [hrec]
          cases l with
          | relu =>
              rw [if_pos rfl]
              have h1 : (Handle.mk j HookKind.fwdCapture = Handle.mk (j + (t + 1)) k) = False := by
                simp [Handle.mk.injEq]
              have h2 : (Handle.mk j HookKind.bwdClip = Handle.mk (j + (t + 1)) k) = False := by
                simp [Handle.mk.injEq]
              simp [List.countP_cons, h1, h2]
          | other => simp

/-- Detaching every handle of a list from that same list of attached
hooks leaves nothing attached. -/
theorem removeHandle_foldl_self : ∀ (l : List Handle),
    l.foldl (fun acc h => removeHandle acc h) l = [] := by
  intro l
  induction l with
  | nil => rfl
  | cons h t ih =>
      simp only [List.foldl_cons, removeHandle, if_pos rfl]
      exact ih

/-- The state left behind by one guided call (guard passing): the
relu-hook handles are appended both to the registration set and to the
model's attached hooks, the stack is reset, and `self.gradients` holds
the zero tensor. -/
theorem guidedCallState_eq (s : Backprop) (input_ : Tensor)
    (hguard : inceptionGuardFails s.model input_ = false) :
    guidedCallState input_ s =
      { model := { s.model with
          attached := s.model.attached ++ reluHandlesOf s.model.layers },
        gradients := some (zerosLike input_),
        handles := s.handles ++ reluHandlesOf s.model.layers,
        relu_outputs := [] } := by
  unfold guidedCallState calculate_gradients
  simp only [hguard, Bool.false_eq_true, if_false, if_true]
  split
  · rfl
  · rfl

/-- Invariant of `n` repeated guided calls on a fresh engine: the class
name and layer list never change, the attached hooks coincide with the
registration set, and every handle occurs `n` times as often as in one
registration round. -/
theorem guided_iterate_invariant (m : Model) (input_ : Tensor)
    (hguard : inceptionGuardFails m input_ = false)
    (hatt : m.attached = []) :
    ∀ n : Nat,
      ((guidedCallState input_)^[n] (Backprop.init m)).model.className = m.className ∧
      ((guidedCallState input_)^[n] (Backprop.init m)).model.layers = m.layers ∧
      ((guidedCallState input_)^[n] (Backprop.init m)).model.attached =
        ((guidedCallState input_)^[n] (Backprop.init m)).handles ∧
      ∀ hdl : Handle,
        ((guidedCallState input_)^[n] (Backprop.init m)).handles.countP
            (fun h => decide (h = hdl)) =
          n * (reluHandlesOf m.layers).countP (fun h => decide (h = hdl)) := by
  intro n
  induction n with
  | zero =>
      refine ⟨rfl, rfl, ?_, fun hdl => by simp [Backprop.init]⟩
      show (Backprop.init m).model.attached = (Backprop.init m).handles
      simp [Backprop.init, hatt]
  | succ k ih =>
      obtain ⟨hclass, hlayers, hattach, hcount⟩ := ih
      have hguardK :
          inceptionGuardFails ((guidedCallState input_)^[k] (Backprop.init m)).model input_ =
            false := by
        unfold inceptionGuardFails containsSub lowerChars at hguard ⊢
        rw [hclass]
        exact hguard
      have hstep : (guidedCallState input_)^[k + 1] (Backprop.init m) =
          guidedCallState input_ ((guidedCallState input_)^[k] (Backprop.init m)) :=
        Function.iterate_succ_apply' (guidedCallState input_) k (Backprop.init m)
      rw [hstep, guidedCallState_eq _ input_ hguardK]
      dsimp only
      refine ⟨hclass, hlayers, ?_, ?_⟩
      · rw [hattach, hlayers]
      · intro hdl
        rw [List.countP_append, hcount hdl, hlayers, Nat.succ_mul]

/-- Claim C7: `n` guided calls on the same fresh engine leave `n`
forward-capture and `n` backward-clip handles registered for each ReLU
layer (one pair per call, none released between calls), every
registered handle is still attached after the calls, and tearing the
engine down (`__del__`) detaches every handle in the registration set,
leaving nothing attached. -/
theorem guided_hooks_accumulate_and_teardown (m : Model) (input_ : Tensor) (n i : Nat)
    (hguard : inceptionGuardFails m input_ = false)
    (hatt : m.attached = [])
    (hrelu : m.layers.getD i LayerKind.other = LayerKind.relu) :
    ((guidedCallState input_)^[n] (Backprop.init m)).handles.countP
        (fun h => decide (h = ⟨i, HookKind.fwdCapture⟩)) = n ∧
    ((guidedCallState input_)^[n] (Backprop.init m)).handles.countP
        (fun h => decide (h = ⟨i, HookKind.bwdClip⟩)) = n ∧
    ((guidedCallState input_)^[n] (Backprop.init m)).model.attached =
      ((guidedCallState input_)^[n] (Backprop.init m)).handles ∧
    (delBackprop ((guidedCallState input_)^[n] (Backprop.init m))).model.attached = [] := by
  obtain ⟨hclass, hlayers, hattach, hcount⟩ :=
    guided_iterate_invariant m input_ hguard hatt n
  have hone : ∀ k : HookKind,
      (reluHandlesOf m.layers).countP (fun h => decide (h = ⟨i, k⟩)) = 1 := by
    intro k
    have h0 := countP_reluHandlesFrom m.layers 0 i k hrelu
    rw [Nat.zero_add] at h0
    exact h0
  refine ⟨?_, ?_, hattach, ?_⟩
  · rw [hcount ⟨i, HookKind.fwdCapture⟩, hone HookKind.fwdCapture, Nat.mul_one]
  · rw [hcount ⟨i, HookKind.bwdClip⟩, hone HookKind.bwdClip, Nat.mul_one]
  · show List.foldl _ _ _ = []
    rw [hattach]
    exact removeHandle_foldl_self _

/-- Witness for C7: two guided calls on the two-class fixture (which
has one ReLU layer, at index 0) leave two pairs of handles; teardown
empties the attached set. -/
theorem hooks_accumulate_witness :
    inceptionGuardFails demoModel demoInput = false ∧
    demoModel.attached = [] ∧
    demoModel.layers.getD 0 LayerKind.other = LayerKind.relu ∧
    (((guidedCallState demoInput)^[2] (Backprop.init demoModel)).handles.countP
        (fun h => decide (h = ⟨0, HookKind.fwdCapture⟩)) = 2 ∧
      ((guidedCallState demoInput)^[2] (Backprop.init demoModel)).handles.countP
        (fun h => decide (h = ⟨0, HookKind.bwdClip⟩)) = 2 ∧
      ((guidedCallState demoInput)^[2] (Backprop.init demoModel)).model.attached =
        ((guidedCallState demoInput)^[2] (Backprop.init demoModel)).handles ∧
      (delBackprop ((guidedCallState demoInput)^[2] (Backprop.init demoModel))).model.attached
        = []) :=
  ⟨by decide, rfl, by decide,
    guided_hooks_accumulate_and_teardown demoModel demoInput 2 0
      (by decide) rfl (by decide)⟩

/-- Pointwise form of clamp-then-multiply: multiplying the clamped
gradient by the activation zeroes every contribution whose incoming
gradient component is negative. -/
theorem zipWith_clampNonneg (g popped : List ℚ) :
    (clampNonneg g).zipWith (fun a b => a * b) popped =
      List.zipWith (fun a b => (if a < 0 then (0 : ℚ) else a) * b) g popped := by
  induction g generalizing popped with
  | nil => simp [clampNonneg]
  | cons a as ih =>
      cases popped with
      | nil => simp [clampNonneg]
      | cons b bs =>
          simp only [clampNonneg, List.map_cons, List.zipWith_cons_cons] at *
          rw [ih bs]
          congr 1
          rcases lt_or_le a 0 with h | h
          · rw [if_pos h, max_eq_right h.le]
          · rw [if_neg (not_lt.mpr h), max_eq_left h]

/-- The hook on a non-empty stack: pop the rightmost entry, return the
clamped-times-activation product. -/
theorem clipGradientsHook_concat (st0 : List (List ℚ)) (popped g : List ℚ) :
    clipGradientsHook (st0 ++ [popped]) g =
      some (st0, popped, (clampNonneg g).zipWith (fun a b => a * b) popped) := by
  simp only [clipGradientsHook, List.getLast?_concat, List.dropLast_concat]

/-- Claim C5: the guided backward interceptor, run on a Relu Output
Stack whose most recently pushed entry is `popped` (pushing appends on
the right), pops exactly that entry, clamps the incoming upstream
gradient so every negative component becomes zero, multiplies the
clamped gradient element-wise by the popped activation, and emits the
product as the gradient propagated further upstream. -/
theorem guided_backward_hook_spec (st0 : List (List ℚ)) (popped g : List ℚ) :
    clipGradientsHook (st0 ++ [popped]) g =
      some (st0, popped,
        List.zipWith (fun a b => (if a < 0 then (0 : ℚ) else a) * b) g popped) := by
  rw [clipGradientsHook_concat, zipWith_clampNonneg]

/-- Splitting a backward pass at a layer-list concatenation. -/
theorem backwardHooked_append (A B : List SeqLayer) (st : List (List ℚ)) (g : List ℚ) :
    backwardHooked (A ++ B) st g =
      match backwardHooked A st g with
      | none => none
      | some (st1, pops1, g1) =>
          match backwardHooked B st1 g1 with
          | none => none
          | some (st2, pops2, g2) => some (st2, pops1 ++ pops2, g2) := by
  induction A generalizing st g with
  | nil =>
      simp only [List.nil_append, backwardHooked]
      cases hB : backwardHooked B st g with
      | none => rfl
      | some r =>
          rcases r with ⟨st2, pops2, g2⟩
          simp
  | cons l A ih =>
      cases l with
      | relu =>
          simp only [List.cons_append, backwardHooked, List.append_eq]
          cases hc : clipGradientsHook st g with
          | none => rfl
          | some r =>
              rcases r with ⟨st2, popped, g2⟩
              simp only []
              rw [ih st2 g2]
              cases hA : backwardHooked A st2 g2 with
              | none => rfl
              | some r2 =>
                  rcases r2 with ⟨st3, pops, g3⟩
                  rcases hB : backwardHooked B st3 g3 with _ | ⟨st4, pops4, g4⟩ <;>
                    simp [hB]
      | lin f b =>
          simp only [List.cons_append, backwardHooked]
          exact ih st (b g)

/-- One forward pass from stack `st0` pushes a block of activations on
the right of the stack, and the backward pass over the reversed layer
list pops exactly that block, last-pushed first, restoring `st0`. -/
theorem forward_backward_stack (layers : List SeqLayer) :
    ∀ (st0 : List (List ℚ)) (x g : List ℚ),
      ∃ pushes y gf,
        forwardHooked layers st0 x = (st0 ++ pushes, y) ∧
        backwardHooked layers.reverse (st0 ++ pushes) g =
          some (st0, pushes.reverse, gf) := by
  induction layers with
  | nil =>
      intro st0 x g
      exact ⟨[], x, g, by simp [forwardHooked], by simp [backwardHooked]⟩
  | cons l ls ih =>
      intro st0 x g
      cases l with
      | relu =>
          obtain ⟨pushes, y, gf, hf, hb⟩ := ih (st0 ++ [reluFwd x]) (reluFwd x) g
          refine ⟨reluFwd x :: pushes, y,
            (clampNonneg gf).zipWith (fun a b => a * b) (reluFwd x), ?_, ?_⟩
          · show forwardHooked ls (st0 ++ [reluFwd x]) (reluFwd x) = _
            rw [hf, List.append_assoc, List.singleton_append]
          · rw [List.reverse_cons, backwardHooked_append,
              show st0 ++ reluFwd x :: pushes = (st0 ++ [reluFwd x]) ++ pushes by simp, hb]
            simp [backwardHooked, clipGradientsHook_concat]
      | lin f b =>
          obtain ⟨pushes, y, gf, hf, hb⟩ := ih st0 (f x) g
          refine ⟨pushes, y, b gf, hf, ?_⟩
          rw [List.reverse_cons, backwardHooked_append, hb]
          simp [backwardHooked]

/-- Claim C6: in guided mode the Relu Output Stack is consumed in
last-in-first-out order — from the empty stack of a fresh guided call,
one forward pass followed by the backward pass over the reversed layer
order pops the captured activations exactly in reverse push order — and
after the completed forward-plus-backward pass the stack is empty, the
number of pops equalling the number of pushes. -/
theorem guided_stack_lifo_and_empty (layers : List SeqLayer) (x g : List ℚ) :
    ∃ gf,
      backwardHooked layers.reverse (forwardHooked layers [] x).1 g =
        some ([], (forwardHooked layers [] x).1.reverse, gf) ∧
      (forwardHooked layers [] x).1.reverse.length = (forwardHooked layers [] x).1.length := by
  obtain ⟨pushes, y, gf, hf, hb⟩ := forward_backward_stack layers [] x g
  rw [List.nil_append] at hb
  refine ⟨gf, ?_, by simp⟩
  rw [hf]
  simpa using hb

/-- Image-loading collaborator fixture for the wrapper claims: every
file path decodes to a `1 × 1 × 1 × 1` tensor. -/
def demoLoader : String → Tensor :=
  fun _ => { shape := [1, 1, 1, 1], data := [(1 : ℚ) / 2] }

/-- A fixture whose input-space gradient has an entry (5) far outside
the `[0, 1]` displayable range; its two-class scores `[3, 1]` put the
top-1 index at 0. -/
def satModel : Model :=
  { className := "SatNet", training := true, layers := [], attached := [],
    forward := fun _ _ => { shape := [1, 2], data := [3, 1] },
    vjp := fun x _ => { shape := x.shape, data := [5] } }

/-- Claim C9 counterexample: on the concrete fixture,
`get_input_gradient` returns as its first component the gradient merely
reshaped for plotting — its entry is 5, which lies outside the
zero-to-one displayable range — and not the normalized/clipped map
(`standardize_and_clip` of it, whose entry would be 1).  So the first
component of the returned pair is not the gradient map normalized or
clipped into the zero-to-one range. -/
theorem get_input_gradient_not_clipped_cex :
    get_input_gradient demoLoader satModel "img.png" true false true =
      Except.ok ({ shape := [1, 1], data := [5] }, { shape := [1, 1, 1, 1], data := [5] }) ∧
    standardize_and_clip { shape := [1, 1], data := [5] } = { shape := [1, 1], data := [1] } ∧
    ({ shape := [1, 1], data := [5] } : Tensor) ≠
      standardize_and_clip { shape := [1, 1], data := [5] } ∧
    ¬ (∀ e ∈ ({ shape := [1, 1], data := [5] } : Tensor).data, 0 ≤ e ∧ e ≤ 1) :=
  ⟨rfl, by decide, by decide, by decide⟩

/-- Claim C9 as amended: for every successful call, the returned pair
consists of the gradient map reshaped for display (batch dimension
removed, channels moved last, entries unchanged — not normalized or
clipped) as its first component, and the raw gradient tensor produced by
the Gradient Engine as its second component; rendering the three-panel
figure is a side effect and not part of the return value. -/
theorem get_input_gradient_returns_formatted_and_raw
    (loader : String → Tensor) (model : Model) (fname : String)
    (guided take_max use_gpu : Bool) (g : Tensor) (tcIdx : Nat)
    (h : (calculate_gradients (Backprop.init model) (loader fname) none take_max guided
        use_gpu).value = Except.ok (g, tcIdx)) :
    get_input_gradient loader model fname guided take_max use_gpu =
      Except.ok (format_for_plotting g, g) := by
  unfold get_input_gradient
  dsimp only
  rw [h]

/-- Witness for the amended C9 on the concrete fixture. -/
theorem formatted_and_raw_witness :
    (calculate_gradients (Backprop.init satModel) (demoLoader "img.png") none false true
        true).value = Except.ok ({ shape := [1, 1, 1, 1], data := [5] }, 0) ∧
    get_input_gradient demoLoader satModel "img.png" true false true =
      Except.ok (format_for_plotting { shape := [1, 1, 1, 1], data := [5] },
        { shape := [1, 1, 1, 1], data := [5] }) :=
  ⟨rfl,
    get_input_gradient_returns_formatted_and_raw demoLoader satModel "img.png"
      true false true { shape := [1, 1, 1, 1], data := [5] } 0 rfl⟩

end PixelPrivacy
